import Mathlib

/-!
Verification development for `burst_db`'s `src/burst_db/query_frame_db.py`.

The module is a CLI with two entry points, `lookup` (frame lookup by id) and
`intersect` (spatial intersection query), both executing one SQL query against
a geopackage database and reshaping the tabular result to JSON.

The shallow embedding below represents:
  * coordinates as `Rat` (the Python code works with floats; none of the
    claims hinge on rounding, so exact rationals are used);
  * a geometry as its finite list of vertices; the spatialite predicates the
    SQL delegates to (`Intersects`, `MbrMinX` …) are modelled over that
    representation: `Intersects` as a shared vertex, `Mbr*` as min/max over
    the vertices.  These functions live in the external spatialite extension,
    not in this repository; only their interface is fixed by the SQL text;
  * a WKT string by whether spatialite's `PolygonFromText` parses it, i.e. as
    either a geometry (`Wkt.valid`) or unparseable text (`Wkt.malformed`);
    `PolygonFromText` returns SQL NULL on unparseable text, and every spatial
    predicate applied to NULL is not true, which the query semantics reflects;
  * the database as lists of rows for the four relations the two SQL queries
    read: `frames`, `frames_bursts`, `burst_id_map`, `rtree_frames_geom`;
  * the side effects of an invocation (opening a connection, loading the
    spatialite extension, running the query, echoing JSON) as an event trace
    returned next to the result, so that "no database access happens" is the
    absence of the corresponding events;
  * Python error outcomes as `Except`: `typer.BadParameter` for the CLI
    validation error, `KeyError` for the failed dictionary access at the end
    of `query_database`, with a separate constructor standing for the
    sqlite3/pandas operational errors so that distinguishability is a fact
    about constructors.
-/

/-- A planar point with exact rational coordinates. -/
structure Point where
  x : Rat
  y : Rat
deriving DecidableEq, Repr

/-- A geometry, represented by its finite list of vertices. -/
abbrev Geometry := List Point

/-- An axis-aligned bounding box `(xmin, ymin, xmax, ymax)`, the `Bbox` tuple
type of the Python module and also the shape computed by the SQL `BBox` CTE. -/
structure Bbox where
  xmin : Rat
  ymin : Rat
  xmax : Rat
  ymax : Rat
deriving DecidableEq, Repr

/-- The bounding box of a single point. -/
def mbrOfPoint (p : Point) : Bbox :=
  ⟨p.x, p.y, p.x, p.y⟩

/-- Union of two bounding boxes (componentwise min/max). -/
def bboxUnion (a b : Bbox) : Bbox :=
  ⟨min a.xmin b.xmin, min a.ymin b.ymin, max a.xmax b.xmax, max a.ymax b.ymax⟩

/-- Minimum bounding rectangle of a geometry: the model of spatialite's
`MbrMinX`/`MbrMinY`/`MbrMaxX`/`MbrMaxY` applied to a parsed geometry.
`none` for an empty vertex list (SQL NULL). -/
def mbr? : Geometry → Option Bbox
  | [] => none
  | p :: ps => some (ps.foldl (fun b q => bboxUnion b (mbrOfPoint q)) (mbrOfPoint p))

/-- Model of spatialite's `Intersects` over the vertex-list representation:
two geometries intersect when they share a vertex. -/
def intersects (g1 g2 : Geometry) : Bool :=
  g1.any (fun p => decide (p ∈ g2))

/-- A WKT text value, represented by its parse status: either it denotes a
geometry or spatialite's `PolygonFromText` rejects it (returning SQL NULL). -/
inductive Wkt
  | valid (g : Geometry)
  | malformed (text : String)
deriving DecidableEq, Repr

/-- Model of spatialite's `PolygonFromText(?, 4326)`: parses a WKT value,
yielding `none` (SQL NULL) on malformed text. -/
def polygonFromText : Wkt → Option Geometry
  | .valid g => some g
  | .malformed _ => none

/-- A row of the `frames` table:
`frames(fid, epsg, is_land, is_north_america, relative_orbit_number,
orbit_pass, geom)`.  The flags are stored as integers (0/1). -/
structure FrameRow where
  fid : Int
  epsg : Int
  is_land : Int
  is_north_america : Int
  relative_orbit_number : Int
  orbit_pass : String
  geom : Geometry
deriving DecidableEq, Repr

/-- A row of the `frames_bursts` association table. -/
structure FrameBurstRow where
  frame_fid : Int
  burst_ogc_fid : Int
deriving DecidableEq, Repr

/-- A row of the `burst_id_map` table, carrying the burst identifier and the
per-burst extent columns `xmin, ymin, xmax, ymax` read by the lookup query. -/
structure BurstRow where
  ogc_fid : Int
  burst_id_jpl : String
  xmin : Rat
  ymin : Rat
  xmax : Rat
  ymax : Rat
deriving DecidableEq, Repr

/-- A row of the `rtree_frames_geom` spatial index: per frame id, the indexed
min/max X/Y bounds. -/
structure RtreeRow where
  id : Int
  minx : Rat
  maxx : Rat
  miny : Rat
  maxy : Rat
deriving DecidableEq, Repr

/-- The read-only geopackage database: the four relations the two SQL queries
in `query_frame_db.py` read. -/
structure Database where
  frames : List FrameRow
  frames_bursts : List FrameBurstRow
  burst_id_map : List BurstRow
  rtree_frames_geom : List RtreeRow
deriving DecidableEq, Repr

/-- Error outcomes of `query_database` as observed by a caller:
`keyError` is the Python `KeyError` raised by `out_dict[frame_id]` when the
query produced no row; `dbError` stands for the sqlite3/pandas operational
errors (missing or corrupt database file, etc.). -/
inductive QueryError
  | keyError (frame_id : Int)
  | dbError (msg : String)
deriving DecidableEq, Repr

/-- The record `query_database` returns for a frame: the row of the grouped
lookup query after pandas post-processing (`burst_ids` split into a list,
`is_land`/`is_north_america` coerced to booleans). -/
structure LookupRecord where
  frame_id : Int
  epsg : Int
  is_land : Bool
  is_north_america : Bool
  xmin : Rat
  ymin : Rat
  xmax : Rat
  ymax : Rat
  burst_ids : List String
deriving DecidableEq, Repr

/-- The rows of the lookup query's three-way inner join
`frames f JOIN frames_bursts fb ON fb.frame_fid = f.fid
JOIN burst_id_map b ON fb.burst_ogc_fid = b.ogc_fid WHERE f.fid = ?`,
each row paired as (frame row, burst row). -/
def lookupRows (frame_id : Int) (db : Database) : List (FrameRow × BurstRow) :=
  (db.frames.filter (fun f => f.fid == frame_id)).flatMap (fun f =>
    (db.frames_bursts.filter (fun fb => fb.frame_fid == f.fid)).flatMap (fun fb =>
      (db.burst_id_map.filter (fun b => b.ogc_fid == fb.burst_ogc_fid)).map
        (fun b => (f, b))))

/-- Embedding of `query_database(frame_id, db_path)`: runs the grouped lookup
query and reshapes the result.  All join rows share `f.fid = frame_id`, so the
`GROUP BY 1` clause yields at most one group; the aggregates
`MIN(xmin), MIN(ymin), MAX(xmax), MAX(ymax)` fold over all join rows,
`GROUP_CONCAT(burst_id_jpl)` (split on commas by the pandas post-processing)
lists one burst id per join row, and the non-aggregated columns are taken from
a representative row (SQLite's bare-column semantics).  An empty result makes
`df.set_index("frame_id").to_dict(orient="index")` the empty dict, so the
final `out_dict[frame_id]` raises `KeyError(frame_id)`. -/
def query_database (frame_id : Int) (db : Database) : Except QueryError LookupRecord :=
  match lookupRows frame_id db with
  | [] => .error (.keyError frame_id)
  | (f, b) :: rest => .ok
      { frame_id := frame_id
        epsg := f.epsg
        is_land := f.is_land != 0
        is_north_america := f.is_north_america != 0
        xmin := (rest.map (fun r => r.2.xmin)).foldl min b.xmin
        ymin := (rest.map (fun r => r.2.ymin)).foldl min b.ymin
        xmax := (rest.map (fun r => r.2.xmax)).foldl max b.xmax
        ymax := (rest.map (fun r => r.2.ymax)).foldl max b.ymax
        burst_ids := b.burst_id_jpl :: rest.map (fun r => r.2.burst_id_jpl) }

/-- Ring of vertices of `shapely.geometry.box(xmin, ymin, xmax, ymax)` in its
WKT rendering: the counter-clockwise closed ring starting at `(xmax, ymin)`. -/
def boxRing (xmin ymin xmax ymax : Rat) : Geometry :=
  [⟨xmax, ymin⟩, ⟨xmax, ymax⟩, ⟨xmin, ymax⟩, ⟨xmin, ymin⟩, ⟨xmax, ymin⟩]

/-- Embedding of `build_wkt_from_bbox(xmin, ymin, xmax, ymax)`: the WKT string
`box(xmin, ymin, xmax, ymax).wkt`, which always parses back to its ring. -/
def build_wkt_from_bbox (xmin ymin xmax ymax : Rat) : Wkt :=
  .valid (boxRing xmin ymin xmax ymax)

/-- A record of the intersect query's projection
`fid as frame_id, epsg, relative_orbit_number, orbit_pass, is_land,
is_north_america, ASText(GeomFromGPB(geom)) AS wkt`.  Note the flag columns
are emitted raw (no boolean coercion is applied on this code path). -/
structure IntersectRecord where
  frame_id : Int
  epsg : Int
  relative_orbit_number : Int
  orbit_pass : String
  is_land : Int
  is_north_america : Int
  wkt : Geometry
deriving DecidableEq, Repr

/-- The join condition of the SQL subquery pairing an R-tree row with the
input's bounding box:
`rtree.minx <= BBox.maxx AND rtree.maxx >= BBox.minx AND
 rtree.miny <= BBox.maxy AND rtree.maxy >= BBox.miny`. -/
def mbrOverlap (r : RtreeRow) (b : Bbox) : Bool :=
  decide (r.minx ≤ b.xmax) && decide (r.maxx ≥ b.xmin) &&
  decide (r.miny ≤ b.ymax) && decide (r.maxy ≥ b.ymin)

/-- Projection of a frame row to the intersect query's output columns. -/
def toIntersectRecord (f : FrameRow) : IntersectRecord :=
  { frame_id := f.fid
    epsg := f.epsg
    relative_orbit_number := f.relative_orbit_number
    orbit_pass := f.orbit_pass
    is_land := f.is_land
    is_north_america := f.is_north_america
    wkt := f.geom }

/-- Semantics of the intersect SQL query for a given WKT parameter:
`PolygonFromText` parses the parameter (NULL on malformed text, in which case
no predicate is true and the result is empty); the `BBox` CTE takes its MBR;
the `fid IN (SELECT id FROM rtree_frames_geom JOIN BBox ON …)` clause keeps
frames with an overlapping R-tree entry; the final
`Intersects((SELECT g FROM given_geom), GeomFromGPB(geom))` keeps those that
exactly intersect. -/
def intersectQuery (w : Wkt) (db : Database) : List IntersectRecord :=
  match polygonFromText w with
  | none => []
  | some g =>
    match mbr? g with
    | none => []
    | some bb =>
      (db.frames.filter (fun f =>
        (db.rtree_frames_geom.any (fun r => r.id == f.fid && mbrOverlap r bb))
          && intersects g f.geom)).map toIntersectRecord

/-- Observable side effects of one CLI invocation, in order: opening the
sqlite connection, loading the spatialite extension, executing the SQL query,
echoing the JSON result. -/
inductive Event
  | connect
  | loadExtension
  | runQuery
  | echo
deriving DecidableEq, Repr

/-- The CLI usage error: `typer.BadParameter` with its message. -/
inductive CliError
  | badParameter (msg : String)
deriving DecidableEq, Repr

/-- The message of the `typer.BadParameter` raised by `intersect`. -/
def usageMessage : String :=
  "Please provide either --bbox or --wkt option, not both or neither."

/-- The connect / load-extension / query / echo path of `intersect` once a WKT
parameter has been resolved. -/
def runIntersectQuery (w : Wkt) (db : Database) :
    List Event × Except CliError (List IntersectRecord) :=
  ([.connect, .loadExtension, .runQuery, .echo], .ok (intersectQuery w db))

/-- Embedding of the `intersect` CLI entry point:
`if bbox is None and wkt is None: raise typer.BadParameter(...)`, then
`wkt_str = build_wkt_from_bbox(*bbox) if bbox is not None else wkt`, then the
database query.  The returned trace records which side effects happened. -/
def intersect (bbox : Option Bbox) (wkt : Option Wkt) (db : Database) :
    List Event × Except CliError (List IntersectRecord) :=
  match bbox, wkt with
  | none, none => ([], .error (.badParameter usageMessage))
  | some b, _ => runIntersectQuery (build_wkt_from_bbox b.xmin b.ymin b.xmax b.ymax) db
  | none, some w => runIntersectQuery w db

/-- A JSON value, as produced by `json.dumps`: numbers and booleans are
distinct node kinds from strings. -/
inductive Json
  | null
  | bool (b : Bool)
  | num (q : Rat)
  | str (s : String)
  | arr (xs : List Json)
  | obj (fields : List (String × Json))
deriving Repr

/-- Field access in a JSON object. -/
def Json.getField : Json → String → Option Json
  | .obj fs, k => fs.lookup k
  | _, _ => none

/-- JSON rendering of a lookup record, mirroring
`json.dumps(query_database(...))`: `frame_id` was consumed as the dict index;
booleans render as JSON booleans, numbers as JSON numbers, burst ids as a
JSON array of strings. -/
def lookupRecordToJson (r : LookupRecord) : Json :=
  .obj [("epsg", .num r.epsg),
        ("is_land", .bool r.is_land),
        ("is_north_america", .bool r.is_north_america),
        ("xmin", .num r.xmin),
        ("ymin", .num r.ymin),
        ("xmax", .num r.xmax),
        ("ymax", .num r.ymax),
        ("burst_ids", .arr (r.burst_ids.map .str))]

/-- Embedding of the `lookup` CLI entry point: `query_database` followed by
`typer.echo(json.dumps(result, indent=4))`; a raised error emits no JSON. -/
def lookup (frame_id : Int) (db : Database) : Except QueryError Json :=
  (query_database frame_id db).map lookupRecordToJson

/-- Correctness of the spatial index: every frame has an R-tree entry under
its id whose bounds contain every vertex of the frame's stored geometry. -/
def RtreeCorrect (db : Database) : Prop :=
  ∀ f ∈ db.frames, ∃ r ∈ db.rtree_frames_geom, r.id = f.fid ∧
    ∀ p ∈ f.geom, r.minx ≤ p.x ∧ p.x ≤ r.maxx ∧ r.miny ≤ p.y ∧ p.y ≤ r.maxy

instance (db : Database) : Decidable (RtreeCorrect db) := by
  unfold RtreeCorrect
  infer_instance

/-- A bounding box covers a point when the point lies within its bounds. -/
def Bbox.covers (b : Bbox) (p : Point) : Prop :=
  b.xmin ≤ p.x ∧ p.x ≤ b.xmax ∧ b.ymin ≤ p.y ∧ p.y ≤ b.ymax

/-- The empty database: no frames, no associations, no bursts, no index. -/
def emptyDb : Database :=
  ⟨[], [], [], []⟩

/-- A sample frame row used by concrete witnesses. -/
def sampleFrame : FrameRow :=
  { fid := 5, epsg := 32611, is_land := 1, is_north_america := 0,
    relative_orbit_number := 10, orbit_pass := "ASCENDING",
    geom := boxRing (-120) 34 (-119) 35 }

/-- A sample burst row used by concrete witnesses. -/
def sampleBurst1 : BurstRow :=
  ⟨101, "b1", -120, 34, -119, 35⟩

/-- A second sample burst row used by concrete witnesses. -/
def sampleBurst2 : BurstRow :=
  ⟨102, "b2", -120, 34, -119, 35⟩

/-- A sample database with one frame, two bursts and a correct R-tree entry,
used by concrete witnesses. -/
def sampleDb : Database :=
  { frames := [sampleFrame]
    frames_bursts := [⟨5, 101⟩, ⟨5, 102⟩]
    burst_id_map := [sampleBurst1, sampleBurst2]
    rtree_frames_geom := [⟨5, -120, -119, 34, 35⟩] }

/-- A sample database whose single frame has no rows in `frames_bursts`,
used by concrete witnesses. -/
def orphanDb : Database :=
  { frames := [sampleFrame]
    frames_bursts := []
    burst_id_map := [sampleBurst1]
    rtree_frames_geom := [⟨5, -120, -119, 34, 35⟩] }

/-! ### Helper lemmas -/

theorem foldl_min_le_init (l : List Rat) (a : Rat) : l.foldl min a ≤ a := by
  induction l generalizing a with
  | nil => exact le_refl a
  | cons x xs ih =>
    calc (x :: xs).foldl min a = xs.foldl min (min a x) := rfl
      _ ≤ min a x := ih (min a x)
      _ ≤ a := min_le_left a x

theorem init_le_foldl_max (l : List Rat) (a : Rat) : a ≤ l.foldl max a := by
  induction l generalizing a with
  | nil => exact le_refl a
  | cons x xs ih =>
    calc a ≤ max a x := le_max_left a x
      _ ≤ xs.foldl max (max a x) := ih (max a x)
      _ = (x :: xs).foldl max a := rfl

theorem covers_bboxUnion_left {a : Bbox} (c : Bbox) {p : Point}
    (h : a.covers p) : (bboxUnion a c).covers p := by
  obtain ⟨h1, h2, h3, h4⟩ := h
  exact ⟨le_trans (min_le_left _ _) h1, le_trans h2 (le_max_left _ _),
         le_trans (min_le_left _ _) h3, le_trans h4 (le_max_left _ _)⟩

theorem covers_bboxUnion_point (a : Bbox) (q : Point) :
    (bboxUnion a (mbrOfPoint q)).covers q :=
  ⟨min_le_right _ _, le_max_right _ _, min_le_right _ _, le_max_right _ _⟩

theorem mbrFoldl_covers_init (l : List Point) (init : Bbox) (p : Point)
    (h : init.covers p) :
    (l.foldl (fun b q => bboxUnion b (mbrOfPoint q)) init).covers p := by
  induction l generalizing init with
  | nil => exact h
  | cons x xs ih => exact ih _ (covers_bboxUnion_left _ h)

theorem mbrFoldl_covers_mem (l : List Point) (init : Bbox) (p : Point)
    (h : p ∈ l) :
    (l.foldl (fun b q => bboxUnion b (mbrOfPoint q)) init).covers p := by
  induction l generalizing init with
  | nil => cases h
  | cons x xs ih =>
    rcases List.mem_cons.mp h with rfl | hmem
    · exact mbrFoldl_covers_init xs _ p (covers_bboxUnion_point init p)
    · exact ih _ hmem

theorem mbr_covers {g : Geometry} {b : Bbox} (hb : mbr? g = some b)
    {p : Point} (hp : p ∈ g) : b.covers p := by
  cases g with
  | nil => cases hp
  | cons q qs =>
    simp only [mbr?, Option.some.injEq] at hb
    subst hb
    rcases List.mem_cons.mp hp with rfl | hmem
    · exact mbrFoldl_covers_init qs _ p
        ⟨le_refl _, le_refl _, le_refl _, le_refl _⟩
    · exact mbrFoldl_covers_mem qs _ p hmem

theorem intersects_shared_point {g1 g2 : Geometry}
    (h : intersects g1 g2 = true) : ∃ p, p ∈ g1 ∧ p ∈ g2 := by
  rcases List.any_eq_true.mp h with ⟨p, hp1, hp2⟩
  exact ⟨p, hp1, of_decide_eq_true hp2⟩

/-! ### Claim theorems -/

/-- C1 counterexample: invoked with both `--bbox` and `--wkt` supplied, on the
empty database, `intersect` does not fail with a usage error: it runs the
query (the trace contains the query event) and succeeds with an empty result
list, so the claim's "both supplied implies usage error before any database
access" is false on the code. -/
theorem intersect_both_supplied_counterexample :
    (intersect (some ⟨0, 0, 1, 1⟩) (some (.valid (boxRing 2 2 3 3))) emptyDb).2 = .ok [] ∧
    Event.runQuery ∈ (intersect (some ⟨0, 0, 1, 1⟩) (some (.valid (boxRing 2 2 3 3))) emptyDb).1 := by
  refine ⟨rfl, ?_⟩
  simp [intersect, runIntersectQuery]

/-- C1 (amended): when neither `--bbox` nor `--wkt` is supplied, `intersect`
fails with the `typer.BadParameter` usage error before any database access —
the event trace is empty, so no connection is opened and no query is
executed.  (When both are supplied, no usage error is raised: the bounding
box is used and the WKT argument is ignored.) -/
theorem intersect_neither_usage_error (db : Database) :
    intersect none none db = ([], .error (.badParameter usageMessage)) ∧
    Event.connect ∉ (intersect none none db).1 ∧
    Event.runQuery ∉ (intersect none none db).1 := by
  refine ⟨rfl, ?_, ?_⟩ <;> simp [intersect]

/-- C2 counterexample: invoked with a malformed WKT string, `intersect` does
not fail with a parse error before the database: the query event is in the
trace (the malformed text reaches the database) and the invocation succeeds
with an empty result list rather than failing at all. -/
theorem intersect_malformed_wkt_counterexample :
    (intersect none (some (.malformed "POLYGON((not a polygon")) emptyDb).2 = .ok [] ∧
    Event.runQuery ∈ (intersect none (some (.malformed "POLYGON((not a polygon")) emptyDb).1 := by
  refine ⟨rfl, ?_⟩
  simp [intersect, runIntersectQuery]

/-- C2 (amended): a malformed WKT string is not rejected before the database:
`intersect` opens the connection, loads the extension and runs the query with
the malformed text as parameter; `PolygonFromText` yields NULL there, every
spatial predicate on NULL is not satisfied, and the invocation succeeds with
an empty result list — no parse error is ever raised. -/
theorem intersect_malformed_wkt_reaches_db (db : Database) (s : String) :
    intersect none (some (.malformed s)) db =
      ([.connect, .loadExtension, .runQuery, .echo], .ok []) := by
  rfl

/-- C9: when both a bounding box and a WKT argument are supplied, the
bounding box takes precedence: the query geometry is built from the bounding
box via `build_wkt_from_bbox`, and the invocation is identical to one where
the WKT argument was never given — the WKT is silently ignored. -/
theorem intersect_bbox_precedence (db : Database) (b : Bbox) (w : Wkt) :
    intersect (some b) (some w) db =
      runIntersectQuery (build_wkt_from_bbox b.xmin b.ymin b.xmax b.ymax) db ∧
    intersect (some b) (some w) db = intersect (some b) none db :=
  ⟨rfl, rfl⟩

/-- C5: for a bounding box with `xmin ≤ xmax` and `ymin ≤ ymax`, parsing the
WKT produced by `build_wkt_from_bbox` and taking its bounding box recovers
exactly the original four bounds (exact rational arithmetic, so within any
floating-point tolerance). -/
theorem build_wkt_roundtrip (xmin ymin xmax ymax : Rat)
    (hx : xmin ≤ xmax) (hy : ymin ≤ ymax) :
    (polygonFromText (build_wkt_from_bbox xmin ymin xmax ymax)).bind mbr? =
      some ⟨xmin, ymin, xmax, ymax⟩ := by
  simp only [build_wkt_from_bbox, polygonFromText, Option.some_bind, boxRing,
    mbr?, List.foldl_cons, List.foldl_nil, bboxUnion, mbrOfPoint,
    Option.some.injEq, Bbox.mk.injEq]
  refine ⟨?_, ?_, ?_, ?_⟩ <;>
    simp [min_def, max_def] <;> split_ifs <;> intros <;> linarith

/-- C5 witness: the round trip at the concrete box `(0, 0, 1, 1)`. -/
theorem build_wkt_roundtrip_witness :
    (0 : Rat) ≤ 1 ∧ (0 : Rat) ≤ 1 ∧
    (polygonFromText (build_wkt_from_bbox 0 0 1 1)).bind mbr? =
      some ⟨0, 0, 1, 1⟩ :=
  ⟨by norm_num, by norm_num,
   build_wkt_roundtrip 0 0 1 1 (by norm_num) (by norm_num)⟩

/-- C8: for a degenerate bounding box (zero width or zero height),
`build_wkt_from_bbox` still produces WKT that parses to a closed five-vertex
ring (first vertex equals last vertex) rather than failing. -/
theorem build_wkt_degenerate (xmin ymin xmax ymax : Rat)
    (_h : xmin = xmax ∨ ymin = ymax) :
    ∃ g, polygonFromText (build_wkt_from_bbox xmin ymin xmax ymax) = some g ∧
      g.length = 5 ∧ g.head? = g.getLast? := by
  exact ⟨boxRing xmin ymin xmax ymax, rfl, rfl, rfl⟩

/-- C8 witness: the degenerate (zero-width) box `(0, 0, 0, 1)`. -/
theorem build_wkt_degenerate_witness :
    ((0 : Rat) = 0 ∨ (0 : Rat) = 1) ∧
    ∃ g, polygonFromText (build_wkt_from_bbox 0 0 0 1) = some g ∧
      g.length = 5 ∧ g.head? = g.getLast? :=
  ⟨Or.inl rfl, build_wkt_degenerate 0 0 0 1 (Or.inl rfl)⟩

/-- C3: for a frame id with no matching row (the lookup join is empty),
`query_database` raises the Python `KeyError` for that id — an error value
distinct by construction from any database/connection error — and `lookup`
therefore propagates the error and emits no JSON object at all. -/
theorem lookup_absent_not_found (fid : Int) (db : Database)
    (h : lookupRows fid db = []) :
    query_database fid db = .error (.keyError fid) ∧
    lookup fid db = .error (.keyError fid) ∧
    ∀ msg, QueryError.keyError fid ≠ QueryError.dbError msg := by
  have hq : query_database fid db = .error (.keyError fid) := by
    unfold query_database
    rw [h]
  refine ⟨hq, ?_, ?_⟩
  · unfold lookup
    rw [hq]
    rfl
  · intro msg hcontra
    exact QueryError.noConfusion hcontra

/-- C3 witness: frame id 42 on the empty database. -/
theorem lookup_absent_not_found_witness :
    lookupRows 42 emptyDb = [] ∧
    (query_database 42 emptyDb = .error (.keyError 42) ∧
     lookup 42 emptyDb = .error (.keyError 42) ∧
     ∀ msg, QueryError.keyError 42 ≠ QueryError.dbError msg) :=
  ⟨rfl, lookup_absent_not_found 42 emptyDb rfl⟩

/-- C10: a frame id present in `frames` but with no rows in the
`frames_bursts` association table makes the inner joins empty, so
`query_database` fails with exactly the `KeyError` of an absent id — its
result is literally the same as on the empty database, so the two cases are
indistinguishable at the public interface. -/
theorem lookup_orphan_frame_indistinguishable (fid : Int) (db : Database)
    (_hpresent : ∃ f ∈ db.frames, f.fid = fid)
    (hnoassoc : ∀ fb ∈ db.frames_bursts, fb.frame_fid ≠ fid) :
    query_database fid db = .error (.keyError fid) ∧
    query_database fid db = query_database fid emptyDb := by
  have hrows : lookupRows fid db = [] := by
    unfold lookupRows
    rw [List.flatMap_eq_nil_iff]
    intro f hf
    have hfid : f.fid = fid := eq_of_beq (List.mem_filter.mp hf).2
    have hassoc : db.frames_bursts.filter (fun fb => fb.frame_fid == f.fid) = [] := by
      rw [List.filter_eq_nil_iff]
      intro fb hfb
      simp only [beq_iff_eq, hfid]
      exact hnoassoc fb hfb
    rw [hassoc]
    rfl
  have hq : query_database fid db = .error (.keyError fid) := by
    unfold query_database
    rw [hrows]
  exact ⟨hq, by rw [hq]; rfl⟩

/-- C10 witness: frame id 5 in a database whose association table is empty. -/
theorem lookup_orphan_frame_witness :
    (∃ f ∈ orphanDb.frames, f.fid = 5) ∧
    (∀ fb ∈ orphanDb.frames_bursts, fb.frame_fid ≠ 5) ∧
    (query_database 5 orphanDb = .error (.keyError 5) ∧
     query_database 5 orphanDb = query_database 5 emptyDb) :=
  ⟨by decide, by decide,
   lookup_orphan_frame_indistinguishable 5 orphanDb (by decide) (by decide)⟩

/-- C6: for a frame id whose lookup join is non-empty (the frame is present
with at least one associated burst) and whose per-burst extents are valid,
`query_database` succeeds with a record whose `xmin ≤ xmax` and
`ymin ≤ ymax` (the bounds being min/max folds over the bursts' extents) and
whose `burst_ids` list is non-empty and lists exactly one identifier per
association row — every associated burst, each exactly once. -/
theorem lookup_present_wellformed (fid : Int) (db : Database)
    (f : FrameRow) (b : BurstRow) (rest : List (FrameRow × BurstRow))
    (h : lookupRows fid db = (f, b) :: rest)
    (hvalid : ∀ r ∈ lookupRows fid db, r.2.xmin ≤ r.2.xmax ∧ r.2.ymin ≤ r.2.ymax) :
    ∃ rec, query_database fid db = .ok rec ∧
      rec.xmin ≤ rec.xmax ∧ rec.ymin ≤ rec.ymax ∧
      rec.burst_ids ≠ [] ∧
      rec.burst_ids = (lookupRows fid db).map (fun r => r.2.burst_id_jpl) := by
  have hb : b.xmin ≤ b.xmax ∧ b.ymin ≤ b.ymax := by
    refine hvalid (f, b) ?_
    rw [h]
    exact List.mem_cons_self _ _
  unfold query_database
  rw [h]
  refine ⟨_, rfl, ?_, ?_, by simp, by simp⟩
  · exact le_trans (foldl_min_le_init _ _) (le_trans hb.1 (init_le_foldl_max _ _))
  · exact le_trans (foldl_min_le_init _ _) (le_trans hb.2 (init_le_foldl_max _ _))

/-- C6 witness: frame id 5 in the sample database with two bursts. -/
theorem lookup_present_wellformed_witness :
    lookupRows 5 sampleDb = [(sampleFrame, sampleBurst1), (sampleFrame, sampleBurst2)] ∧
    (∀ r ∈ lookupRows 5 sampleDb, r.2.xmin ≤ r.2.xmax ∧ r.2.ymin ≤ r.2.ymax) ∧
    ∃ rec, query_database 5 sampleDb = .ok rec ∧
      rec.xmin ≤ rec.xmax ∧ rec.ymin ≤ rec.ymax ∧
      rec.burst_ids ≠ [] ∧
      rec.burst_ids = (lookupRows 5 sampleDb).map (fun r => r.2.burst_id_jpl) :=
  ⟨by decide, by decide,
   lookup_present_wellformed 5 sampleDb sampleFrame sampleBurst1
     [(sampleFrame, sampleBurst2)] (by decide) (by decide)⟩

/-- C7: for a frame id whose lookup join is non-empty, the returned record's
`is_land` and `is_north_america` are booleans that are true exactly when the
stored integer is non-zero (the `astype(bool)` coercion), and the emitted
JSON object renders them as JSON booleans and `epsg` as a JSON number —
never as strings. -/
theorem lookup_bool_coercion (fid : Int) (db : Database)
    (f : FrameRow) (b : BurstRow) (rest : List (FrameRow × BurstRow))
    (h : lookupRows fid db = (f, b) :: rest) :
    ∃ rec, query_database fid db = .ok rec ∧
      (rec.is_land = true ↔ f.is_land ≠ 0) ∧
      (rec.is_north_america = true ↔ f.is_north_america ≠ 0) ∧
      (lookupRecordToJson rec).getField "is_land" = some (.bool rec.is_land) ∧
      (lookupRecordToJson rec).getField "is_north_america" = some (.bool rec.is_north_america) ∧
      (lookupRecordToJson rec).getField "epsg" = some (.num rec.epsg) := by
  unfold query_database
  rw [h]
  refine ⟨_, rfl, bne_iff_ne, bne_iff_ne, rfl, rfl, rfl⟩

/-- C7 witness: frame id 5 in the sample database (stored `is_land = 1`,
`is_north_america = 0`). -/
theorem lookup_bool_coercion_witness :
    lookupRows 5 sampleDb = [(sampleFrame, sampleBurst1), (sampleFrame, sampleBurst2)] ∧
    ∃ rec, query_database 5 sampleDb = .ok rec ∧
      (rec.is_land = true ↔ sampleFrame.is_land ≠ 0) ∧
      (rec.is_north_america = true ↔ sampleFrame.is_north_america ≠ 0) ∧
      (lookupRecordToJson rec).getField "is_land" = some (.bool rec.is_land) ∧
      (lookupRecordToJson rec).getField "is_north_america" = some (.bool rec.is_north_america) ∧
      (lookupRecordToJson rec).getField "epsg" = some (.num rec.epsg) :=
  ⟨by decide,
   lookup_bool_coercion 5 sampleDb sampleFrame sampleBurst1
     [(sampleFrame, sampleBurst2)] (by decide)⟩

/-- C4: assuming index correctness (`RtreeCorrect`), `intersect` on a parsed
input geometry returns exactly the frames whose stored geometry intersects
it: the result equals the exact-intersection filter over all frames, and the
R-tree pre-filter (both-axes bound comparison against the input's bounding
box) accepts every frame passing the exact predicate — it may over-select
but never under-selects. -/
theorem intersectQuery_exact (db : Database) (g : Geometry)
    (hrt : RtreeCorrect db) :
    (intersect none (some (.valid g)) db).2 =
      .ok ((db.frames.filter (fun f => intersects g f.geom)).map toIntersectRecord) ∧
    ∀ f ∈ db.frames, ∀ bb, mbr? g = some bb → intersects g f.geom = true →
      db.rtree_frames_geom.any (fun r => r.id == f.fid && mbrOverlap r bb) = true := by
  have hpre : ∀ f ∈ db.frames, ∀ bb, mbr? g = some bb → intersects g f.geom = true →
      db.rtree_frames_geom.any (fun r => r.id == f.fid && mbrOverlap r bb) = true := by
    intro f hf bb hbb hint
    obtain ⟨p, hp1, hp2⟩ := intersects_shared_point hint
    obtain ⟨r, hr, hrid, hrcov⟩ := hrt f hf
    obtain ⟨hx1, hx2, hy1, hy2⟩ := hrcov p hp2
    obtain ⟨hbx1, hbx2, hby1, hby2⟩ := mbr_covers hbb hp1
    refine List.any_eq_true.mpr ⟨r, hr, ?_⟩
    rw [Bool.and_eq_true]
    refine ⟨beq_iff_eq.mpr hrid, ?_⟩
    unfold mbrOverlap
    simp only [Bool.and_eq_true, decide_eq_true_eq]
    exact ⟨⟨⟨le_trans hx1 hbx2, le_trans hbx1 hx2⟩, le_trans hy1 hby2⟩,
           le_trans hby1 hy2⟩
  refine ⟨?_, hpre⟩
  show Except.ok (intersectQuery (.valid g) db) = _
  simp only [intersectQuery, polygonFromText]
  cases hmbr : mbr? g with
  | none =>
    have hg : g = [] := by
      cases g with
      | nil => rfl
      | cons q qs => simp [mbr?] at hmbr
    subst hg
    simp [intersects]
  | some bb =>
    dsimp only
    refine congrArg Except.ok (congrArg (List.map toIntersectRecord) (List.filter_congr ?_))
    intro f hf
    cases hint : intersects g f.geom with
    | false => simp
    | true => simp [hpre f hf bb hmbr hint]

/-- C4 witness: the sample database with a correct R-tree entry, queried with
the frame's own ring (so the exact predicate holds for the frame). -/
theorem intersectQuery_exact_witness :
    RtreeCorrect sampleDb ∧
    ((intersect none (some (.valid (boxRing (-120) 34 (-119) 35))) sampleDb).2 =
      .ok ((sampleDb.frames.filter
        (fun f => intersects (boxRing (-120) 34 (-119) 35) f.geom)).map toIntersectRecord) ∧
     ∀ f ∈ sampleDb.frames, ∀ bb, mbr? (boxRing (-120) 34 (-119) 35) = some bb →
       intersects (boxRing (-120) 34 (-119) 35) f.geom = true →
       sampleDb.rtree_frames_geom.any (fun r => r.id == f.fid && mbrOverlap r bb) = true) :=
  ⟨by decide, intersectQuery_exact sampleDb (boxRing (-120) 34 (-119) 35) (by decide)⟩
